import Mathlib

/-!
Verification of the mythen-dcs protocol/transport engine against its
natural-language specification.  The definitions below are a shallow
embedding of `mythendcs/core.py`, `mythendcs/group.py` and
`mythendcs/simulator/core.py` (plus, where explicitly noted, the historical
revision `mythen/core.py`).  Stateful Python code is embedded as explicit
state passing; wire traffic is recorded as a list of command strings;
exceptions become `Except` / explicit error fields.
-/

namespace MythenDCS

/-! ## Error codes (mythendcs/core.py lines 23-29) -/

def ERR_MYTHEN_COMM_LENGTH : Int := -40
def ERR_MYTHEN_COMM_TIMEOUT : Int := -41
def ERR_MYTHEN_READOUT : Int := -42
def ERR_MYTHEN_SETTINGS : Int := -43
def ERR_MYTHEN_BAD_PARAMETER : Int := -44
def ERR_MYHEN_CMD_REMOVED : Int := -45
def ERR_MYTHEN_COMM_ERROR : Int := -46

/-- Wire trace: the textual commands written to the device connection,
in order. -/
abbrev Wire := List String

/-! ## Connection._read_exactly_into (core.py lines 194-206)

`recv_into(buff[offset:], size - offset)` returns at most the requested
count; the incoming byte stream is modelled by a script `chunks` where each
entry is the number of bytes the socket has available at that receive
(an entry of 0 models the peer having closed the stream).  An exhausted
script models a receive that blocks forever. -/

inductive ReadResult
  | filled (n : Nat)
  | commError
  | blocked
  deriving DecidableEq, Repr

namespace Connection

/-- The `while offset < size` loop of `_read_exactly_into`: each iteration
receives `n = min available (size - offset)` bytes; `n = 0` raises
`MythenError(ERR_MYTHEN_COMM_ERROR)`. -/
def read_exactly_loop (size : Nat) : Nat → List Nat → ReadResult
  | offset, [] => if size ≤ offset then .filled offset else .blocked
  | offset, c :: rest =>
    if size ≤ offset then .filled offset
    else if min c (size - offset) = 0 then .commError
    else read_exactly_loop size (offset + min c (size - offset)) rest

/-- `Connection._read_exactly_into` on a buffer of `size` bytes, starting
at offset 0. -/
def read_exactly_into (size : Nat) (chunks : List Nat) : ReadResult :=
  read_exactly_loop size 0 chunks

end Connection

/-! ## ensure_connection (core.py lines 100-125)

The wrapper invokes the wrapped operation `f` at most twice.  One
invocation of `f` either returns a value (a byte string of some length, or
a non-bytes value such as `None` or a numpy buffer) or raises a socket
timeout or another `OSError`.  Connecting is modelled as always
succeeding.  Note that Python's `ConnectionError` — raised by the wrapper
itself on an empty bytes result — is a subclass of `OSError`, so inside
the wrapper's `try` block it is caught by the `except OSError` handler. -/

inductive Kind
  | tcp
  | udp
  deriving DecidableEq, Repr

/-- Outcome of one invocation of the wrapped operation. -/
inductive Outcome
  | val (isBytes : Bool) (len : Nat)
  | timeout
  | ioerror
  deriving DecidableEq, Repr

/-- Socket-level events observable on the connection. -/
inductive Ev
  | connect
  | disconnect
  | invoke
  deriving DecidableEq, Repr

/-- What the wrapped call delivers to its caller. -/
inductive CallResult
  | ok (isBytes : Bool) (len : Nat)
  | raisedTimeout
  | raisedIoError
  | raisedConnClosed
  deriving DecidableEq, Repr

/-- Propagating an invocation outcome unmodified to the caller. -/
def outcomeResult : Outcome → CallResult
  | .val b n => .ok b n
  | .timeout => .raisedTimeout
  | .ioerror => .raisedIoError

/-- The `ensure_connection` wrapper applied to a call whose first
invocation of `f` has outcome `o1` and whose retry (when one happens) has
outcome `o2`.  `connected` says whether `self.socket` was already set.
Returns the caller-visible result and the event trace. -/
def ensure_connection (kind : Kind) (connected : Bool) (o1 o2 : Outcome) :
    CallResult × List Ev :=
  let pre : List Ev := if connected then [] else [.connect]
  if kind = .udp ∨ !connected then
    -- `if self.kind == UDP or just_connected:` branch: disconnect and
    -- re-raise on any error; no empty-result check, no retry.
    match o1 with
    | .val b n => (.ok b n, pre ++ [.invoke])
    | .timeout => (.raisedTimeout, pre ++ [.invoke, .disconnect])
    | .ioerror => (.raisedIoError, pre ++ [.invoke, .disconnect])
  else
    match o1 with
    | .val b n =>
      if b ∧ n = 0 then
        -- `raise ConnectionError` inside the try block: caught by the
        -- `except OSError` handler, which reconnects and retries once.
        (outcomeResult o2, [.invoke, .connect, .invoke])
      else (.ok b n, [.invoke])
    | .timeout => (.raisedTimeout, [.invoke, .disconnect])
    | .ioerror => (outcomeResult o2, [.invoke, .connect, .invoke])

/-! ## guard_timeout (core.py lines 128-139)

The socket is modelled as a record carrying its current timeout value and
whether it is still open; the guarded body is an arbitrary state
transformer that may return a value or raise. -/

structure ConnSock (τ : Type) where
  alive : Bool
  timeout : τ
  deriving DecidableEq, Repr

/-- A per-call timeout argument: the `DEFAULT_TIMEOUT` sentinel or an
override value. -/
inductive TimeoutArg (τ : Type)
  | default
  | override (t : τ)
  deriving DecidableEq, Repr

/-- The `guard_timeout` context manager around `body`.  With the sentinel
it does nothing; with an override it saves `gettimeout()`, applies the
override, runs the body, and in the `finally` restores the saved value
provided the socket is still open. -/
def guard_timeout {τ α ε : Type} (arg : TimeoutArg τ) (st : ConnSock τ)
    (body : ConnSock τ → Except ε α × ConnSock τ) : Except ε α × ConnSock τ :=
  match arg with
  | .default => body st
  | .override t =>
    let prev := st.timeout
    let r := body { st with timeout := t }
    (r.1, if r.2.alive then { r.2 with timeout := prev } else r.2)

/-- `Connection.write_read` (core.py lines 229-235): the write+read pair
runs inside `guard_timeout`; `transport` is the underlying
write-then-read state transformer. -/
def Connection.write_read {τ α ε : Type} (arg : TimeoutArg τ) (st : ConnSock τ)
    (transport : ConnSock τ → Except ε α × ConnSock τ) :
    Except ε α × ConnSock τ :=
  guard_timeout arg st transport

/-! ## Status decoding

`command` (core.py lines 267-284) raises on any negative 4-byte reply, so
the status properties only ever see a non-negative bitmask; it is embedded
as `Nat`. -/

def MASK_RUNNING : Nat := 1
def MASK_WAIT_TRIGGER : Nat := 8
def MASK_FIFO_EMPTY : Nat := 65536

namespace Mythen

/-- `Mythen.status` (mythendcs/core.py lines 564-575): decodes the status
bitmask into a composite state string. -/
def status (value : Nat) : String :=
  if value &&& MASK_RUNNING ≠ 0 then "RUNNING" else "ON"

end Mythen

namespace MythenLegacyRev

/-- `Mythen.get_status` of the historical revision `mythen/core.py`
(lines 165-174): surfaces WAIT_TRIGGER as a third composite state. -/
def get_status (value : Nat) : String :=
  if value &&& MASK_RUNNING ≠ 0 then "RUNNING"
  else if value &&& MASK_WAIT_TRIGGER ≠ 0 then "WAIT_TRIGGER"
  else "ON"

end MythenLegacyRev

/-! ## ChainGroup (group.py)

`_map` submits `func(mythen)` to the executor for each unit, in list
order, then waits for every future (in submission order) before
returning.  The observable trace records, per unit, the issuing of the
call (`submit`), its completion (`finish`), and direct (non-pooled)
invocations (`call`).  `start` maps over `reversed(self.mythen_slaves)`
and only then calls `self.mythen_master.start()`. -/

inductive ChainEv (U : Type)
  | submit (u : U)
  | finish (u : U)
  | call (u : U)
  deriving DecidableEq, Repr

/-- Trace of `ChainGroup._map` (group.py lines 74-83): all submissions in
list order, then the result barrier — `_map` returns only once every
unit's call has finished. -/
def mapTrace {U : Type} (units : List U) : List (ChainEv U) :=
  units.map .submit ++ units.map .finish

structure ChainGroup (U : Type) where
  master : U
  slaves : List U

/-- Trace of `ChainGroup.start` (group.py lines 85-88): `_map` over the
reversed slave list, then a direct `start()` on the master. -/
def ChainGroup.start {U : Type} (g : ChainGroup U) : List (ChainEv U) :=
  mapTrace g.slaves.reverse ++ [.call g.master]

/-- The order in which `start` calls are issued on the underlying units:
a pooled call is issued at submission, a direct call at invocation. -/
def issuedCalls {U : Type} : List (ChainEv U) → List U
  | [] => []
  | .submit u :: r => u :: issuedCalls r
  | .finish _ :: r => issuedCalls r
  | .call u :: r => u :: issuedCalls r

/-! ## Mythen4 removed commands (core.py lines 960-1009)

Each operation is embedded as the caller-visible result (a raised
`MythenError` code or success) together with the wire trace it produces.
The value type of the removed getters is irrelevant: they raise before
producing anything. -/

def SETTINGS : List String := ["Cu", "Mo", "Cr", "Ag"]

namespace Mythen4

def outputhigh_get : Except Int Bool × Wire := (.error ERR_MYHEN_CMD_REMOVED, [])

def outputhigh_set (_v : Bool) : Except Int Unit × Wire :=
  (.error ERR_MYHEN_CMD_REMOVED, [])

def inputhigh_get : Except Int Bool × Wire := (.error ERR_MYHEN_CMD_REMOVED, [])

def inputhigh_set (_v : Bool) : Except Int Unit × Wire :=
  (.error ERR_MYHEN_CMD_REMOVED, [])

def settingsmode_get : Except Int String × Wire :=
  (.error ERR_MYHEN_CMD_REMOVED, [])

def settingsmode_set (_v : String) : Except Int Unit × Wire :=
  (.error ERR_MYHEN_CMD_REMOVED, [])

def autosettings (_v : Int) : Except Int Unit × Wire :=
  (.error ERR_MYHEN_CMD_REMOVED, [])

def settings_get : Except Int String × Wire := (.error ERR_MYHEN_CMD_REMOVED, [])

/-- `Mythen4.settings` setter (core.py lines 1002-1009): redefined after
the removed getter, it validates against `SETTINGS` and sends
`-settings <value>` over the wire. -/
def settings_set (v : String) : Except Int Unit × Wire :=
  if v ∈ SETTINGS then (.ok (), ["-settings " ++ v])
  else (.error ERR_MYTHEN_BAD_PARAMETER, [])

end Mythen4

/-! ## Boolean-typed setters (core.py lines 406-415, 440-449, 625-633,
748-797)

The dynamically-typed argument is modelled by `PyVal`.  Python's
`type(value) != bool` / `type(value) is not bool` checks reject every
non-bool value, including ints (bool is checked by exact type, not by
truthiness).  The outcome records the raised error (if any), the wire
trace, the client-side cached flag after the call (`none` for settings
that keep no cache: badchnintrpl, flatfield, rate) and the device-side
value after the call. -/

inductive PyVal
  | pybool (b : Bool)
  | pyint (n : Int)
  | pystr (s : String)
  | pynone
  deriving DecidableEq, Repr

def PyVal.isBool : PyVal → Bool
  | .pybool _ => true
  | _ => false

structure SetterOutcome where
  err : Option Int
  wire : Wire
  cache : Option Bool
  dev : Bool
  deriving DecidableEq, Repr

/-- Common shape of the eight boolean setters: `if type(value) != bool:
raise MythenError(ERR_MYTHEN_BAD_PARAMETER)` before any I/O, else
`self.command(cmd % int(value))` (the device applies it) and, for cached
settings, the client flag is updated afterwards. -/
def boolSetter (cmd : String) (v : PyVal) (cache : Option Bool) (dev : Bool) :
    SetterOutcome :=
  match v with
  | .pybool b =>
    { err := none
      wire := [cmd ++ " " ++ (if b then "1" else "0")]
      cache := cache.map fun _ => b
      dev := b }
  | _ => { err := some ERR_MYTHEN_BAD_PARAMETER, wire := [], cache := cache, dev := dev }

namespace Mythen

def badchnintrpl_set (v : PyVal) (dev : Bool) : SetterOutcome :=
  boolSetter "-badchannelinterpolation" v none dev

def flatfield_set (v : PyVal) (dev : Bool) : SetterOutcome :=
  boolSetter "-flatfieldcorrection" v none dev

def rate_set (v : PyVal) (dev : Bool) : SetterOutcome :=
  boolSetter "-ratecorrection" v none dev

def triggermode_set (v : PyVal) (cache : Bool) (dev : Bool) : SetterOutcome :=
  boolSetter "-trigen" v (some cache) dev

def continuoustrigger_set (v : PyVal) (cache : Bool) (dev : Bool) : SetterOutcome :=
  boolSetter "-conttrigen" v (some cache) dev

def gatemode_set (v : PyVal) (cache : Bool) (dev : Bool) : SetterOutcome :=
  boolSetter "-gateen" v (some cache) dev

def outputhigh_set (v : PyVal) (cache : Bool) (dev : Bool) : SetterOutcome :=
  boolSetter "-outpol" v (some cache) dev

def inputhigh_set (v : PyVal) (cache : Bool) (dev : Bool) : SetterOutcome :=
  boolSetter "-inpol" v (some cache) dev

end Mythen

/-! ## Mythen.frames and Mythen.reset (core.py lines 362-369, 454-468) -/

namespace Mythen

/-- The client-side state touched by `frames` / `reset`: only the cached
frame count matters here. -/
structure St where
  _frames : Int
  deriving DecidableEq, Repr

/-- `Mythen.frames` getter: returns `self._frames`; no command is
written. -/
def frames_get (st : St) : Int × Wire := (st._frames, [])

/-- `Mythen.reset`: sends `-reset` (with a widened per-call timeout) and
sets the cached frame count back to 1. -/
def reset (st : St) : St × Wire := ({ st with _frames := 1 }, ["-reset"])

end Mythen

/-! ## set_active_modules (core.py lines 497-506 and 845-861)

The device is modelled by its active-module count and its per-module
channel-count table; `-nmodules m` sets the count to `m`.  `Mythen4`
additionally keeps `_num_module_channels`, a client-side cache of the
`-get modchannels` reply. -/

structure Device where
  nmodules : Int
  modchannels : List Int
  deriving DecidableEq, Repr

namespace Mythen

/-- `Mythen.get_active_modules`: sends `-get nmodules` and returns the
device value. -/
def get_active_modules (dev : Device) : Int × Wire := (dev.nmodules, ["-get nmodules"])

/-- `Mythen.set_active_modules` (core.py lines 502-506): skips the
mutating `-nmodules` command when the device already reports the
requested count. -/
def set_active_modules (dev : Device) (m : Int) : Device × Wire :=
  if dev.nmodules = m then (dev, ["-get nmodules"])
  else ({ dev with nmodules := m }, ["-get nmodules", "-nmodules " ++ toString m])

end Mythen

namespace Mythen4

/-- Client-side state of `Mythen4` relevant to `_update`. -/
structure St where
  _num_module_channels : Option (List Int)
  nmods : Int
  nchannels : Int
  buff : Int
  deriving DecidableEq, Repr

/-- `Mythen4.num_module_channels` (core.py lines 863-869): returns the
cache when set, otherwise sends `-get modchannels` and fills it. -/
def num_module_channels (dev : Device) (cache : Option (List Int)) :
    List Int × Option (List Int) × Wire :=
  match cache with
  | some v => (v, some v, [])
  | none => (dev.modchannels, some dev.modchannels, ["-get modchannels"])

/-- `Mythen4._update` (core.py lines 845-852): drops the channel-count
cache, re-reads the active module count and the per-module channel
counts, and recomputes the derived sizes. -/
def _update (dev : Device) (_st : St) : St × Wire :=
  let am := Mythen.get_active_modules dev
  let ch := num_module_channels dev none
  ({ _num_module_channels := ch.2.1
     nmods := am.1
     nchannels := ch.1.sum
     buff := 4 * ch.1.sum }, am.2 ++ ch.2.2)

/-- `Mythen4.set_active_modules` (core.py lines 857-859): the base
setter, then `_update`. -/
def set_active_modules (dev : Device) (st : St) (m : Int) :
    Device × St × Wire :=
  let base := Mythen.set_active_modules dev m
  let upd := _update base.1 st
  (base.1, upd.1, base.2 ++ upd.2)

end Mythen4

/-! ## Simulator: BaseAcquisition.run cancellation path
(simulator/core.py lines 227-248)

`create_frame(self, frame_nb, exposure_time)` takes two required
arguments; a Python call is modelled with its argument list so that the
arity error the interpreter raises on a wrong-arity call is visible.  A
frame is `nb_channels` copies of the frame index (4-byte little-endian
each); it is modelled as the list of channel values. -/

inductive PyEx
  | typeError
  deriving DecidableEq, Repr

/-- A dynamic call of `BaseAcquisition.create_frame` with the given
positional arguments (after `self`).  The method body is
`self.nb_channels * frame_nb.to_bytes(4, 'little', signed=True)`; the
`exposure_time` parameter is unused but required. -/
def call_create_frame (nb_channels : Nat) (args : List Int) :
    Except PyEx (List Int) :=
  match args with
  | [frame_nb, _exposure_time] => .ok (List.replicate nb_channels frame_nb)
  | _ => .error .typeError

/-- The `except gevent.GreenletExit` handler of `BaseAcquisition.run`
(simulator/core.py lines 234-238), given the index of the last produced
frame (`-1` when none was produced).  On success it returns the items
appended to the output queue, in order (`none` is the closing sentinel);
an escaping exception means nothing further is enqueued. -/
def run_cancel_handler (nb_channels : Nat) (nb_frames frame_nb : Int) :
    Except PyEx (List (Option (List Int))) :=
  if frame_nb < nb_frames - 1 then
    -- source: `frame = self.create_frame(frame_nb+1)` — one argument only
    match call_create_frame nb_channels [frame_nb + 1] with
    | .ok f => .ok [some f, none]
    | .error e => .error e
  else .ok [none]

/-! ## Helper lemmas -/

theorem read_exactly_loop_filled (size : Nat) :
    ∀ (chunks : List Nat) (offset n : Nat), offset ≤ size →
      Connection.read_exactly_loop size offset chunks = ReadResult.filled n →
      n = size := by
  intro chunks
  induction chunks with
  | nil =>
    intro offset n hle h
    unfold Connection.read_exactly_loop at h
    by_cases hso : size ≤ offset
    · simp only [if_pos hso, ReadResult.filled.injEq] at h
      omega
    · simp [if_neg hso] at h
  | cons c rest ih =>
    intro offset n hle h
    unfold Connection.read_exactly_loop at h
    by_cases hso : size ≤ offset
    · simp only [if_pos hso, ReadResult.filled.injEq] at h
      omega
    · rw [if_neg hso] at h
      by_cases hn : min c (size - offset) = 0
      · rw [if_pos hn] at h
        simp at h
      · rw [if_neg hn] at h
        exact ih (offset + min c (size - offset)) n (by omega) h

theorem read_exactly_loop_fills (size : Nat) :
    ∀ (chunks : List Nat) (offset : Nat), offset ≤ size →
      (∀ c ∈ chunks, 0 < c) → size ≤ offset + chunks.sum →
      Connection.read_exactly_loop size offset chunks = ReadResult.filled size := by
  intro chunks
  induction chunks with
  | nil =>
    intro offset h1 _ h3
    simp only [List.sum_nil, Nat.add_zero] at h3
    have h4 : offset = size := Nat.le_antisymm h1 h3
    subst h4
    unfold Connection.read_exactly_loop
    simp
  | cons c rest ih =>
    intro offset h1 h2 h3
    unfold Connection.read_exactly_loop
    by_cases hso : size ≤ offset
    · have h4 : offset = size := Nat.le_antisymm h1 hso
      subst h4
      simp
    · have hc : 0 < c := h2 c (List.mem_cons_self _ _)
      have hn : min c (size - offset) ≠ 0 := by omega
      rw [if_neg hso, if_neg hn]
      apply ih
      · omega
      · intro x hx
        exact h2 x (List.mem_cons_of_mem _ hx)
      · simp only [List.sum_cons] at h3
        omega

/-- C2: `read_exactly_into` on an `n`-byte buffer returns only after
exactly `n` bytes were received, however the stream is fragmented, and a
zero-byte receive before the buffer is full raises
`MythenError(ERR_MYTHEN_COMM_ERROR)`. -/
theorem C2_read_exactly_into_exact_fill :
    (∀ size chunks n,
        Connection.read_exactly_into size chunks = ReadResult.filled n →
        n = size) ∧
    (∀ size chunks, (∀ c ∈ chunks, 0 < c) → size ≤ chunks.sum →
        Connection.read_exactly_into size chunks = ReadResult.filled size) ∧
    (∀ size offset rest, offset < size →
        Connection.read_exactly_loop size offset (0 :: rest) =
          ReadResult.commError) := by
  refine ⟨?_, ?_, ?_⟩
  · intro size chunks n h
    exact read_exactly_loop_filled size chunks 0 n (Nat.zero_le _) h
  · intro size chunks h1 h2
    exact read_exactly_loop_fills size chunks 0 (Nat.zero_le _) h1 (by simpa using h2)
  · intro size offset rest h
    unfold Connection.read_exactly_loop
    simp [Nat.not_le.mpr h]

/-- C2 witness: a 7-byte buffer filled over three fragmented receives,
and a zero-byte receive mid-fill reported as a communication error. -/
theorem C2_read_exactly_into_exact_fill_witness :
    Connection.read_exactly_into 7 [3, 2, 2] = ReadResult.filled 7 ∧
    Connection.read_exactly_loop 7 3 (0 :: [4]) = ReadResult.commError := by
  constructor
  · exact C2_read_exactly_into_exact_fill.2.1 7 [3, 2, 2] (by decide) (by decide)
  · exact C2_read_exactly_into_exact_fill.2.2 7 3 [4] (by decide)

/-- C5 counterexample: with only the waiting-for-trigger bit (bit 3) set,
the legacy `Mythen.status` property of mythendcs returns "ON", not
"WAIT_TRIGGER" as the claim states. -/
theorem C5_counterexample :
    Mythen.status 8 = "ON" ∧ Mythen.status 8 ≠ "WAIT_TRIGGER" := by
  decide

/-- C5 (amended): in mythendcs, `Mythen.status` returns "RUNNING"
whenever bit 0 is set and "ON" otherwise — it never reports
"WAIT_TRIGGER"; the WAIT_TRIGGER composite state (bit 3 set, bit 0
clear) exists only in the historical revision `mythen/core.py`
`get_status`. -/
theorem C5_status_decoding :
    (∀ v, v &&& MASK_RUNNING ≠ 0 → Mythen.status v = "RUNNING") ∧
    (∀ v, v &&& MASK_RUNNING = 0 → Mythen.status v = "ON") ∧
    (∀ v, Mythen.status v ≠ "WAIT_TRIGGER") ∧
    (∀ v, v &&& MASK_RUNNING ≠ 0 → MythenLegacyRev.get_status v = "RUNNING") ∧
    (∀ v, v &&& MASK_RUNNING = 0 → v &&& MASK_WAIT_TRIGGER ≠ 0 →
        MythenLegacyRev.get_status v = "WAIT_TRIGGER") ∧
    (∀ v, v &&& MASK_RUNNING = 0 → v &&& MASK_WAIT_TRIGGER = 0 →
        MythenLegacyRev.get_status v = "ON") := by
  refine ⟨?_, ?_, ?_, ?_, ?_, ?_⟩
  · intro v h
    simp [Mythen.status, h]
  · intro v h
    simp [Mythen.status, h]
  · intro v
    unfold Mythen.status
    split <;> decide
  · intro v h
    simp [MythenLegacyRev.get_status, h]
  · intro v h1 h2
    simp [MythenLegacyRev.get_status, h1, h2]
  · intro v h1 h2
    simp [MythenLegacyRev.get_status, h1, h2]

/-- C5 witness: concrete status words — 9 (running + wait bits) decodes
to RUNNING on both generations, 8 (wait bit only) decodes to ON on
mythendcs and to WAIT_TRIGGER on the historical revision. -/
theorem C5_status_decoding_witness :
    Mythen.status 9 = "RUNNING" ∧ Mythen.status 8 = "ON" ∧
    MythenLegacyRev.get_status 8 = "WAIT_TRIGGER" ∧
    MythenLegacyRev.get_status 0 = "ON" := by
  refine ⟨?_, ?_, ?_, ?_⟩
  · exact C5_status_decoding.1 9 (by decide)
  · exact C5_status_decoding.2.1 8 (by decide)
  · exact C5_status_decoding.2.2.2.2.1 8 (by decide) (by decide)
  · exact C5_status_decoding.2.2.2.2.2 0 (by decide) (by decide)

/-- C1 counterexample: on an established stream connection, an empty
byte-string result is not raised to the caller as a connection-closed
error — the internally raised `ConnectionError` is an `OSError`, so the
wrapper reconnects and retries, and the retry's result is returned. -/
theorem C1_counterexample :
    ensure_connection Kind.tcp true (Outcome.val true 0) (Outcome.val true 3)
      = (CallResult.ok true 3, [Ev.invoke, Ev.connect, Ev.invoke]) ∧
    (ensure_connection Kind.tcp true (Outcome.val true 0)
        (Outcome.val true 3)).1 ≠ CallResult.raisedConnClosed := by
  decide

/-- C1 (amended): on an established stream connection a timeout
disconnects and re-raises with no retry; any other I/O error — and
likewise an empty byte-string result, whose internal connection-closed
error is caught as an I/O error — causes exactly one reconnect and one
retry whose outcome (second failure included) passes to the caller
unmodified; a non-empty result returns directly.  On UDP or on a freshly
made connection an error is re-raised after disconnecting, with no
retry. -/
theorem C1_ensure_connection_policy :
    (∀ o2, ensure_connection Kind.tcp true Outcome.timeout o2 =
        (CallResult.raisedTimeout, [Ev.invoke, Ev.disconnect])) ∧
    (∀ o2, ensure_connection Kind.tcp true Outcome.ioerror o2 =
        (outcomeResult o2, [Ev.invoke, Ev.connect, Ev.invoke])) ∧
    (∀ o2, ensure_connection Kind.tcp true (Outcome.val true 0) o2 =
        (outcomeResult o2, [Ev.invoke, Ev.connect, Ev.invoke])) ∧
    (∀ b n o2, (b = true → n ≠ 0) →
        ensure_connection Kind.tcp true (Outcome.val b n) o2 =
          (CallResult.ok b n, [Ev.invoke])) ∧
    (∀ kind connected o1 o2, (kind = Kind.udp ∨ connected = false) →
        (o1 = Outcome.timeout ∨ o1 = Outcome.ioerror) →
        ensure_connection kind connected o1 o2 =
          (outcomeResult o1,
           (if connected then [] else [Ev.connect]) ++ [Ev.invoke, Ev.disconnect])) := by
  refine ⟨?_, ?_, ?_, ?_, ?_⟩
  · intro o2
    rfl
  · intro o2
    rfl
  · intro o2
    rfl
  · intro b n o2 h
    have hb : ¬(b = true ∧ n = 0) := by
      rintro ⟨rfl, rfl⟩
      exact h rfl rfl
    cases b <;> simp_all [ensure_connection]
  · intro kind connected o1 o2 hk ho
    rcases ho with rfl | rfl
    · rcases hk with rfl | rfl
      · cases connected <;> simp [ensure_connection, outcomeResult]
      · cases kind <;> simp [ensure_connection, outcomeResult]
    · rcases hk with rfl | rfl
      · cases connected <;> simp [ensure_connection, outcomeResult]
      · cases kind <;> simp [ensure_connection, outcomeResult]

/-- C1 witness: concrete instances of the amended retry policy. -/
theorem C1_ensure_connection_policy_witness :
    ensure_connection Kind.udp true Outcome.timeout (Outcome.val true 3) =
      (CallResult.raisedTimeout, [Ev.invoke, Ev.disconnect]) ∧
    ensure_connection Kind.tcp true (Outcome.val true 5) (Outcome.val true 3) =
      (CallResult.ok true 5, [Ev.invoke]) := by
  constructor
  · have h := C1_ensure_connection_policy.2.2.2.2 Kind.udp true Outcome.timeout
      (Outcome.val true 3) (Or.inl rfl) (Or.inl rfl)
    simpa using h
  · exact C1_ensure_connection_policy.2.2.2.1 true 5 (Outcome.val true 3) (by simp)

/-! ## ChainGroup trace lemmas -/

theorem issuedCalls_append {U : Type} (a b : List (ChainEv U)) :
    issuedCalls (a ++ b) = issuedCalls a ++ issuedCalls b := by
  induction a with
  | nil => rfl
  | cons e r ih => cases e <;> simp [issuedCalls, ih]

theorem issuedCalls_submits {U : Type} (l : List U) :
    issuedCalls (l.map ChainEv.submit) = l := by
  induction l with
  | nil => rfl
  | cons u r ih => simp [issuedCalls, ih]

theorem issuedCalls_finishes {U : Type} (l : List U) :
    issuedCalls (l.map ChainEv.finish) = [] := by
  induction l with
  | nil => rfl
  | cons u r ih => simp [issuedCalls, ih]

/-- C3: `ChainGroup.start` issues the slave starts in reverse chain
order and only invokes the master start after every slave start has
finished; for a 3-unit chain the issued order is
[slaveB, slaveA, master]. -/
theorem C3_chain_start_order :
    (∀ (U : Type) (g : ChainGroup U),
        issuedCalls g.start = g.slaves.reverse ++ [g.master]) ∧
    (∀ (U : Type) (g : ChainGroup U) (s : U), s ∈ g.slaves →
        g.start = mapTrace g.slaves.reverse ++ [ChainEv.call g.master] ∧
        ChainEv.finish s ∈ mapTrace g.slaves.reverse) ∧
    issuedCalls (ChainGroup.start ⟨"master", ["slaveA", "slaveB"]⟩) =
      ["slaveB", "slaveA", "master"] := by
  refine ⟨?_, ?_, ?_⟩
  · intro U g
    unfold ChainGroup.start mapTrace
    rw [issuedCalls_append, issuedCalls_append, issuedCalls_submits,
      issuedCalls_finishes]
    simp [issuedCalls]
  · intro U g s hs
    refine ⟨rfl, ?_⟩
    unfold mapTrace
    refine List.mem_append_right _ ?_
    exact List.mem_map_of_mem _ (List.mem_reverse.mpr hs)
  · rfl

/-- C3 witness: the master's direct call comes after the finish barrier
of every slave in the 3-unit chain 0 (master), 1 (slaveA), 2 (slaveB). -/
theorem C3_chain_start_order_witness :
    ChainGroup.start (⟨0, [1, 2]⟩ : ChainGroup Nat) =
      mapTrace [2, 1] ++ [ChainEv.call 0] ∧
    ChainEv.finish 1 ∈ mapTrace ([2, 1] : List Nat) := by
  have h := C3_chain_start_order.2.1 Nat ⟨0, [1, 2]⟩ 1 (by decide)
  simpa using h

/-- C4 counterexample: the `Mythen4.settings` setter does not raise the
removed-command error — with the valid value "Cu" it sends
`-settings Cu` over the wire and succeeds. -/
theorem C4_counterexample :
    Mythen4.settings_set "Cu" = (Except.ok (), ["-settings Cu"]) ∧
    Mythen4.settings_set "Cu" ≠
      (Except.error ERR_MYHEN_CMD_REMOVED, ([] : Wire)) := by
  constructor
  · rfl
  · intro h
    simp [Mythen4.settings_set, SETTINGS] at h

/-- C4 (amended): on Mythen4 the polarity operations (outputhigh and
inputhigh, get and set), settingsmode (get and set), autosettings and the
settings getter all raise `MythenError(ERR_MYHEN_CMD_REMOVED)` without
writing to the connection; the settings setter however is redefined to
validate membership in SETTINGS (BadParameter otherwise, with no I/O) and
send `-settings <value>`. -/
theorem C4_mythen4_removed_commands :
    Mythen4.outputhigh_get = (Except.error ERR_MYHEN_CMD_REMOVED, ([] : Wire)) ∧
    (∀ v, Mythen4.outputhigh_set v =
        (Except.error ERR_MYHEN_CMD_REMOVED, ([] : Wire))) ∧
    Mythen4.inputhigh_get = (Except.error ERR_MYHEN_CMD_REMOVED, ([] : Wire)) ∧
    (∀ v, Mythen4.inputhigh_set v =
        (Except.error ERR_MYHEN_CMD_REMOVED, ([] : Wire))) ∧
    Mythen4.settingsmode_get = (Except.error ERR_MYHEN_CMD_REMOVED, ([] : Wire)) ∧
    (∀ v, Mythen4.settingsmode_set v =
        (Except.error ERR_MYHEN_CMD_REMOVED, ([] : Wire))) ∧
    (∀ v, Mythen4.autosettings v =
        (Except.error ERR_MYHEN_CMD_REMOVED, ([] : Wire))) ∧
    Mythen4.settings_get = (Except.error ERR_MYHEN_CMD_REMOVED, ([] : Wire)) ∧
    (∀ v, v ∈ SETTINGS →
        Mythen4.settings_set v = (Except.ok (), ["-settings " ++ v])) ∧
    (∀ v, v ∉ SETTINGS →
        Mythen4.settings_set v =
          (Except.error ERR_MYTHEN_BAD_PARAMETER, ([] : Wire))) := by
  refine ⟨rfl, fun v => rfl, rfl, fun v => rfl, rfl, fun v => rfl,
    fun v => rfl, rfl, ?_, ?_⟩
  · intro v h
    simp [Mythen4.settings_set, h]
  · intro v h
    simp [Mythen4.settings_set, h]

/-- C4 witness: settings set with a valid and with an invalid value. -/
theorem C4_mythen4_removed_commands_witness :
    Mythen4.settings_set "Mo" = (Except.ok (), ["-settings Mo"]) ∧
    Mythen4.settings_set "Standard" =
      (Except.error ERR_MYTHEN_BAD_PARAMETER, ([] : Wire)) := by
  constructor
  · exact C4_mythen4_removed_commands.2.2.2.2.2.2.2.2.1 "Mo" (by decide)
  · exact C4_mythen4_removed_commands.2.2.2.2.2.2.2.2.2 "Standard" (by decide)

/-! ## Boolean setter helper -/

theorem boolSetter_rejects_non_bool (cmd : String) (v : PyVal)
    (cache : Option Bool) (dev : Bool) (h : v.isBool = false) :
    boolSetter cmd v cache dev =
      { err := some ERR_MYTHEN_BAD_PARAMETER, wire := [], cache := cache,
        dev := dev } := by
  cases v <;> simp_all [PyVal.isBool, boolSetter]

/-- C6: every boolean-typed setter rejects a non-bool value with
`MythenError(ERR_MYTHEN_BAD_PARAMETER)` before any wire write, leaving
device value and cached client flag unchanged; a bool value is sent as
the corresponding command with the value encoded as 0 or 1 (and the
cached flag, where one exists, is updated to it). -/
theorem C6_bool_setters_validate :
    (∀ v dev, v.isBool = false → Mythen.badchnintrpl_set v dev =
        ⟨some ERR_MYTHEN_BAD_PARAMETER, [], none, dev⟩) ∧
    (∀ v dev, v.isBool = false → Mythen.flatfield_set v dev =
        ⟨some ERR_MYTHEN_BAD_PARAMETER, [], none, dev⟩) ∧
    (∀ v dev, v.isBool = false → Mythen.rate_set v dev =
        ⟨some ERR_MYTHEN_BAD_PARAMETER, [], none, dev⟩) ∧
    (∀ v cache dev, v.isBool = false → Mythen.triggermode_set v cache dev =
        ⟨some ERR_MYTHEN_BAD_PARAMETER, [], some cache, dev⟩) ∧
    (∀ v cache dev, v.isBool = false → Mythen.continuoustrigger_set v cache dev =
        ⟨some ERR_MYTHEN_BAD_PARAMETER, [], some cache, dev⟩) ∧
    (∀ v cache dev, v.isBool = false → Mythen.gatemode_set v cache dev =
        ⟨some ERR_MYTHEN_BAD_PARAMETER, [], some cache, dev⟩) ∧
    (∀ v cache dev, v.isBool = false → Mythen.outputhigh_set v cache dev =
        ⟨some ERR_MYTHEN_BAD_PARAMETER, [], some cache, dev⟩) ∧
    (∀ v cache dev, v.isBool = false → Mythen.inputhigh_set v cache dev =
        ⟨some ERR_MYTHEN_BAD_PARAMETER, [], some cache, dev⟩) ∧
    (∀ b dev, Mythen.badchnintrpl_set (.pybool b) dev =
        ⟨none, ["-badchannelinterpolation " ++ (if b then "1" else "0")], none, b⟩) ∧
    (∀ b dev, Mythen.flatfield_set (.pybool b) dev =
        ⟨none, ["-flatfieldcorrection " ++ (if b then "1" else "0")], none, b⟩) ∧
    (∀ b dev, Mythen.rate_set (.pybool b) dev =
        ⟨none, ["-ratecorrection " ++ (if b then "1" else "0")], none, b⟩) ∧
    (∀ b cache dev, Mythen.triggermode_set (.pybool b) cache dev =
        ⟨none, ["-trigen " ++ (if b then "1" else "0")], some b, b⟩) ∧
    (∀ b cache dev, Mythen.continuoustrigger_set (.pybool b) cache dev =
        ⟨none, ["-conttrigen " ++ (if b then "1" else "0")], some b, b⟩) ∧
    (∀ b cache dev, Mythen.gatemode_set (.pybool b) cache dev =
        ⟨none, ["-gateen " ++ (if b then "1" else "0")], some b, b⟩) ∧
    (∀ b cache dev, Mythen.outputhigh_set (.pybool b) cache dev =
        ⟨none, ["-outpol " ++ (if b then "1" else "0")], some b, b⟩) ∧
    (∀ b cache dev, Mythen.inputhigh_set (.pybool b) cache dev =
        ⟨none, ["-inpol " ++ (if b then "1" else "0")], some b, b⟩) := by
  refine ⟨?_, ?_, ?_, ?_, ?_, ?_, ?_, ?_,
    fun b dev => rfl, fun b dev => rfl, fun b dev => rfl,
    fun b cache dev => rfl, fun b cache dev => rfl, fun b cache dev => rfl,
    fun b cache dev => rfl, fun b cache dev => rfl⟩
  · intro v dev h
    exact boolSetter_rejects_non_bool _ v none dev h
  · intro v dev h
    exact boolSetter_rejects_non_bool _ v none dev h
  · intro v dev h
    exact boolSetter_rejects_non_bool _ v none dev h
  · intro v cache dev h
    exact boolSetter_rejects_non_bool _ v (some cache) dev h
  · intro v cache dev h
    exact boolSetter_rejects_non_bool _ v (some cache) dev h
  · intro v cache dev h
    exact boolSetter_rejects_non_bool _ v (some cache) dev h
  · intro v cache dev h
    exact boolSetter_rejects_non_bool _ v (some cache) dev h
  · intro v cache dev h
    exact boolSetter_rejects_non_bool _ v (some cache) dev h

/-- C6 witness: assigning the int 1 (not a bool, despite being truthy)
to triggermode is rejected with no I/O; assigning True sends
`-trigen 1`. -/
theorem C6_bool_setters_validate_witness :
    Mythen.triggermode_set (.pyint 1) false true =
      ⟨some ERR_MYTHEN_BAD_PARAMETER, [], some false, true⟩ ∧
    Mythen.triggermode_set (.pybool true) false false =
      ⟨none, ["-trigen 1"], some true, true⟩ := by
  constructor
  · exact C6_bool_setters_validate.2.2.2.1 (.pyint 1) false true (by decide)
  · exact C6_bool_setters_validate.2.2.2.2.2.2.2.2.2.2.2.1 true false false

/-- C7: a per-call timeout override is visible to the guarded body only
for the duration of the call and the previous socket timeout is restored
when the call returns — also when the body raises — provided the socket
survived the call; with the `DEFAULT_TIMEOUT` sentinel nothing is
touched.  `Connection.write_read` inherits the property since it wraps
its transport in `guard_timeout`. -/
theorem C7_guard_timeout_scoping :
    (∀ (τ α ε : Type) (t : τ) (st : ConnSock τ)
        (body : ConnSock τ → Except ε α × ConnSock τ),
        (guard_timeout (.override t) st body).1 =
          (body { st with timeout := t }).1) ∧
    (∀ (τ α ε : Type) (t : τ) (st : ConnSock τ)
        (body : ConnSock τ → Except ε α × ConnSock τ),
        (body { st with timeout := t }).2.alive = true →
        (guard_timeout (.override t) st body).2 =
          { (body { st with timeout := t }).2 with timeout := st.timeout }) ∧
    (∀ (τ α ε : Type) (t : τ) (st : ConnSock τ) (e : ε), st.alive = true →
        (Connection.write_read (α := α) (.override t) st
            (fun s => (Except.error e, s))).2.timeout = st.timeout ∧
        (Connection.write_read (α := α) (.override t) st
            (fun s => (Except.error e, s))).1 = Except.error e) ∧
    (∀ (τ α ε : Type) (st : ConnSock τ)
        (body : ConnSock τ → Except ε α × ConnSock τ),
        guard_timeout .default st body = body st) := by
  refine ⟨?_, ?_, ?_, ?_⟩
  · intro τ α ε t st body
    rfl
  · intro τ α ε t st body h
    simp [guard_timeout, h]
  · intro τ α ε t st e h
    simp [Connection.write_read, guard_timeout, h]
  · intro τ α ε st body
    rfl

/-- C7 witness: a write_read whose transport raises still restores the
connection-level timeout 5 after the override 1. -/
theorem C7_guard_timeout_scoping_witness :
    (Connection.write_read (α := Nat) (TimeoutArg.override 1)
        (⟨true, 5⟩ : ConnSock Nat)
        (fun s => ((Except.error 0 : Except Nat Nat), s))).2.timeout = 5 ∧
    (Connection.write_read (α := Nat) (TimeoutArg.override 1)
        (⟨true, 5⟩ : ConnSock Nat)
        (fun s => ((Except.error 0 : Except Nat Nat), s))).1 = Except.error 0 :=
  C7_guard_timeout_scoping.2.2.1 Nat Nat Nat 1 ⟨true, 5⟩ 0 rfl

/-- C8: the claim matches the clear intent of the cancellation handler,
but the code is a slip — `run`'s except-branch calls
`self.create_frame(frame_nb+1)` with a single argument while
`create_frame(self, frame_nb, exposure_time)` requires two, so a mid-run
cancellation raises `TypeError` and neither the synthetic terminal frame
nor the closing sentinel is enqueued; a correctly-arity call would have
produced the frame. -/
theorem C8_cancel_handler_raises_type_error :
    run_cancel_handler 1280 3 0 = Except.error PyEx.typeError ∧
    (∀ (nb_channels : Nat) (nb_frames frame_nb : Int),
        frame_nb < nb_frames - 1 →
        run_cancel_handler nb_channels nb_frames frame_nb =
          Except.error PyEx.typeError) ∧
    call_create_frame 1280 [1, 0] = Except.ok (List.replicate 1280 1) := by
  refine ⟨rfl, ?_, rfl⟩
  intro nb_channels nb_frames frame_nb h
  simp [run_cancel_handler, call_create_frame, h]

/-- C8 witness: a 5-frame acquisition cancelled after its third frame
(frame_nb = 2 < 4). -/
theorem C8_cancel_handler_raises_type_error_witness :
    run_cancel_handler 2560 5 2 = Except.error PyEx.typeError :=
  C8_cancel_handler_raises_type_error.2.1 2560 5 2 (by decide)

/-- C9: the `frames` getter returns the cached client-side count and
writes nothing to the wire; `reset` sends only `-reset` (in particular no
`-get frames` query) and sets the cached count back to 1, so after
`reset` the `frames` property reads 1. -/
theorem C9_frames_cached_and_reset :
    (∀ st, Mythen.frames_get st = (st._frames, ([] : Wire))) ∧
    (∀ st, (Mythen.reset st).2 = ["-reset"] ∧
        "-get frames" ∉ (Mythen.reset st).2) ∧
    (∀ st, Mythen.frames_get (Mythen.reset st).1 = (1, ([] : Wire))) := by
  refine ⟨fun st => rfl, fun st => ⟨rfl, ?_⟩, fun st => rfl⟩
  intro hm
  simp [Mythen.reset] at hm

/-- C10: when the device already reports the requested module count the
setter sends no mutating `-nmodules` command (only queries); on Mythen4
the channel-count cache is nevertheless invalidated and re-fetched on
every `set_active_modules` call. -/
theorem C10_set_active_modules_idempotent :
    (∀ (dev : Device) (m : Int), dev.nmodules = m →
        Mythen.set_active_modules dev m = (dev, ["-get nmodules"])) ∧
    (∀ (dev : Device) (m : Int), dev.nmodules = m →
        ("-nmodules " ++ toString m) ∉ (Mythen.set_active_modules dev m).2) ∧
    (∀ (dev : Device) (st : Mythen4.St) (m : Int), dev.nmodules = m →
        Mythen4.set_active_modules dev st m =
          (dev,
           ⟨some dev.modchannels, dev.nmodules, dev.modchannels.sum,
            4 * dev.modchannels.sum⟩,
           ["-get nmodules", "-get nmodules", "-get modchannels"])) ∧
    (∀ (dev : Device) (st : Mythen4.St) (m : Int),
        (Mythen4.set_active_modules dev st m).2.1._num_module_channels =
          some (Mythen4.set_active_modules dev st m).1.modchannels ∧
        "-get modchannels" ∈ (Mythen4.set_active_modules dev st m).2.2) := by
  refine ⟨?_, ?_, ?_, ?_⟩
  · intro dev m h
    simp [Mythen.set_active_modules, h]
  · intro dev m h
    simp [Mythen.set_active_modules, h]
    intro hc
    have h2 : ("-nmodules " ++ toString m).data = ("-get nmodules" : String).data := by
      rw [hc]
    have h3 : ("-nmodules " ++ toString m).data =
        "-nmodules ".data ++ (toString m).data := rfl
    rw [h3] at h2
    have h4 : ("-nmodules " : String).data =
        ['-', 'n', 'm', 'o', 'd', 'u', 'l', 'e', 's', ' '] := rfl
    have h5 : ("-get nmodules" : String).data =
        ['-', 'g', 'e', 't', ' ', 'n', 'm', 'o', 'd', 'u', 'l', 'e', 's'] := rfl
    rw [h4, h5] at h2
    simp at h2
  · intro dev st m h
    simp [Mythen4.set_active_modules, Mythen4._update, Mythen4.num_module_channels,
      Mythen.set_active_modules, Mythen.get_active_modules, h]
  · intro dev st m
    by_cases h : dev.nmodules = m <;>
      simp [Mythen4.set_active_modules, Mythen4._update, Mythen4.num_module_channels,
        Mythen.set_active_modules, Mythen.get_active_modules, h]

/-- C10 witness: a 2-module device asked for 2 modules again — no
`-nmodules` on the wire, while the Mythen4 cache is refreshed from the
device. -/
theorem C10_set_active_modules_idempotent_witness :
    Mythen.set_active_modules ⟨2, [1280, 1280]⟩ 2 =
      (⟨2, [1280, 1280]⟩, ["-get nmodules"]) ∧
    Mythen4.set_active_modules ⟨2, [1280, 1280]⟩ ⟨some [9], 0, 0, 0⟩ 2 =
      (⟨2, [1280, 1280]⟩, ⟨some [1280, 1280], 2, 2560, 10240⟩,
       ["-get nmodules", "-get nmodules", "-get modchannels"]) := by
  constructor
  · exact C10_set_active_modules_idempotent.1 ⟨2, [1280, 1280]⟩ 2 rfl
  · have h := C10_set_active_modules_idempotent.2.2.1 ⟨2, [1280, 1280]⟩
      ⟨some [9], 0, 0, 0⟩ 2 rfl
    simpa using h

end MythenDCS
